import Mathlib

/-!
Verification development for the content-to-theory synthesis service.

The repository ships two source files: the Next.js route handler
`src/web/src/app/api/synth/route.ts` (ingestion layer) and the page
`src/web/src/app/page.tsx` (presentation layer). The core engine
`src/lib/theoryBuilder` (`synthesizeTheory`) is referenced by both but its
source file is not part of the repository snapshot, so the core is modelled
here from the specification; the route handler is embedded directly from
`route.ts`.

Numbers are modelled as rationals (`ℚ`), strings as Lean `String`
(a wrapper around `List Char`). JavaScript truthiness on strings
(`!s` is true exactly for `""`) and on numbers (`!x` is true for `0`)
is embedded explicitly at each use site.
-/

namespace SynthEngine

/-- Modelled from the spec: the three accepted source media (`text | pdf | audio`),
from the `SourceDescriptor.medium` field of §3. -/
inductive Medium where
  | text
  | pdf
  | audio
  deriving DecidableEq, Repr

/-- Modelled from the spec: `SourceDescriptor` of §3 (also the route's `SourceMeta`):
medium, non-negative character count, optional context tag and notes. -/
structure SourceDescriptor where
  medium : Medium
  length : Nat
  contextTag : Option String
  additionalNotes : Option (List String)
  deriving DecidableEq, Repr

/-- Modelled from the spec: a ranked salient term (§3 `Concept`). -/
structure Concept where
  term : String
  weight : ℚ
  firstIdx : Nat
  deriving DecidableEq, Repr

/-- Modelled from the spec: §3 `Formula`. -/
structure Formula where
  title : String
  expression : String
  explanation : String
  deriving DecidableEq, Repr

/-- Modelled from the spec: §3 `SystemModel`. -/
structure SystemModel where
  name : String
  governingEquation : String
  focus : String
  deriving DecidableEq, Repr

/-- Modelled from the spec: §3 `ParameterEntry`. -/
structure ParameterEntry where
  label : String
  description : String
  deriving DecidableEq, Repr

/-- Modelled from the spec: the signal profile recording the source medium (§3). -/
structure SignalProfile where
  medium : Medium
  deriving DecidableEq, Repr

/-- Modelled from the spec: §3 `TheorySynthesis`, the sole output record. -/
structure TheorySynthesis where
  coreThesis : String
  phenomena : List String
  derivedFormulas : List Formula
  systemModels : List SystemModel
  parameterTable : List ParameterEntry
  complexityScore : ℚ
  coherence : ℚ
  signalProfile : SignalProfile
  inferenceSteps : List String
  recommendedExperiments : List String
  deriving DecidableEq, Repr

/-- Modelled from the spec: §7, the single error kind the core may signal. -/
inductive InvalidInputError where
  | invalidInput
  deriving DecidableEq, Repr

/-! ### Stage 1: Normalizer (§4.1) -/

/-- Modelled from the spec: the fixed processing cap of §4.1 (first N characters,
N fixed; truncation depends only on length). -/
def lengthCap : Nat := 20000

def cappedChars (content : String) : List Char := content.data.take lengthCap

/-- Accumulates the current (reversed) in-progress token; emits a token at each
non-alphanumeric boundary, lowercasing as it goes (§4.1). -/
def tokenizeAux : List Char → List Char → List String
  | [], acc => if acc.isEmpty then [] else [String.mk acc.reverse]
  | c :: cs, acc =>
    if c.isAlphanum then tokenizeAux cs (c.toLower :: acc)
    else if acc.isEmpty then tokenizeAux cs []
    else String.mk acc.reverse :: tokenizeAux cs []

def tokensOf (content : String) : List String := tokenizeAux (cappedChars content) []

/-- Splits the capped character stream into sentence segments on terminal
punctuation (§4.1). Only the segment count feeds later stages. -/
def sentSplitAux : List Char → List Char → List (List Char)
  | [], acc => if acc.isEmpty then [] else [acc.reverse]
  | c :: cs, acc =>
    if c = '.' ∨ c = '!' ∨ c = '?' then
      if acc.isEmpty then sentSplitAux cs [] else acc.reverse :: sentSplitAux cs []
    else sentSplitAux cs (c :: acc)

def sentencesOf (content : String) : List (List Char) := sentSplitAux (cappedChars content) []

/-! ### Stage 2: Concept Extractor (§4.2) -/

/-- Modelled from the spec: the fixed stopword set of §4.2. -/
def stopwords : List String :=
  ["a", "o", "as", "os", "de", "da", "do", "das", "dos", "e", "em", "um", "uma",
   "que", "com", "para", "por", "no", "na", "se", "ao", "sua", "seu",
   "the", "of", "and", "to", "in", "is", "on", "for"]

/-- Modelled from the spec: light suffix stripping so plural/singular variants
merge (§4.2): drop a final s from tokens longer than three characters. -/
def stripSuffix (t : String) : String :=
  if 3 < t.data.length ∧ t.data.getLast? = some 's' then String.mk t.data.dropLast else t

/-- Per-term statistics: frequency and first-occurrence index. -/
structure TokenStat where
  term : String
  freq : Nat
  firstIdx : Nat
  deriving DecidableEq, Repr

/-- Increments the count of `t` in the stat list, or appends a fresh entry with
first-occurrence index `i`, preserving first-occurrence order. -/
def bumpStat (t : String) (i : Nat) : List TokenStat → List TokenStat
  | [] => [⟨t, 1, i⟩]
  | st :: rest =>
    if st.term = t then ⟨st.term, st.freq + 1, st.firstIdx⟩ :: rest
    else st :: bumpStat t i rest

def statsAux : Nat → List String → List TokenStat → List TokenStat
  | _, [], acc => acc
  | i, t :: ts, acc => statsAux (i + 1) ts (bumpStat t i acc)

/-- Modelled from the spec: strict ranking order of §4.2 — descending weight,
ties by first occurrence, then lexicographic. Strictness keeps the insertion
sort stable, which realises the deterministic tie-break. -/
def conceptLt (a b : Concept) : Bool :=
  if b.weight < a.weight then true
  else if a.weight = b.weight then
    if a.firstIdx < b.firstIdx then true
    else if a.firstIdx = b.firstIdx then decide (a.term < b.term)
    else false
  else false

def insertBy {α : Type} (lt : α → α → Bool) (x : α) : List α → List α
  | [] => [x]
  | y :: ys => if lt x y then x :: y :: ys else y :: insertBy lt x ys

def sortBy {α : Type} (lt : α → α → Bool) (l : List α) : List α :=
  l.foldr (insertBy lt) []

/-- Modelled from the spec: §4.2 concept extraction — stopword filter, suffix
merge, weight = frequency × positional boost (boost decreasing in the
first-occurrence index), top 6 by rank, synthetic fallback concept when no
candidate survives. -/
def extractConcepts (toks : List String) : List Concept :=
  let cleaned := (toks.map stripSuffix).filter (fun t => !stopwords.contains t)
  let sts := statsAux 0 cleaned []
  let cands := sts.map (fun st =>
    { term := st.term
      weight := (st.freq : ℚ) * (1 + 1 / ((st.firstIdx : ℚ) + 1))
      firstIdx := st.firstIdx })
  let top := (sortBy conceptLt cands).take 6
  if top.isEmpty then [{ term := "conceito-sintetico", weight := 1, firstIdx := 0 }] else top

def conceptsOf (content : String) : List Concept := extractConcepts (tokensOf content)

theorem extractConcepts_length (toks : List String) :
    1 ≤ (extractConcepts toks).length ∧ (extractConcepts toks).length ≤ 6 := by
  unfold extractConcepts
  dsimp only
  split
  · simp
  · rename_i h
    constructor
    · rcases hnil : (sortBy conceptLt _).take 6 with _ | ⟨x, xs⟩
      · simp at h hnil; exact absurd hnil h
      · simp
    · exact List.length_take_le _ _

theorem conceptsOf_length (content : String) :
    1 ≤ (conceptsOf content).length ∧ (conceptsOf content).length ≤ 6 :=
  extractConcepts_length _

theorem conceptsOf_ne_nil (content : String) : conceptsOf content ≠ [] := by
  have h := (conceptsOf_length content).1
  intro hnil
  rw [hnil] at h
  simp at h

/-! ### Stage 3: Metric Engine (§4.3) -/

def clamp01 (x : ℚ) : ℚ := max 0 (min 1 x)

theorem clamp01_nonneg (x : ℚ) : 0 ≤ clamp01 x := le_max_left _ _

theorem clamp01_le_one (x : ℚ) : clamp01 x ≤ 1 :=
  max_le (by norm_num) (min_le_left _ _)

/-- Generic first-occurrence deduplication, used for the unique-token count and
the parameter glossary. Keeps the first copy of each element. -/
def dedupFirst {α : Type} [DecidableEq α] : List α → List α
  | [] => []
  | x :: xs => x :: dedupFirst (xs.filter (fun y => decide ¬(y = x)))
  termination_by l => l.length
  decreasing_by simp; exact Nat.lt_succ_of_le (List.length_filter_le _ _)

/-- Modelled from the spec: fixed baseline scores substituted when
`totalTokens ≤ 1` (§4.3), instead of dividing by zero. -/
def baselineComplexity : ℚ := 1 / 4

def baselineCoherence : ℚ := 3 / 5

/-- Modelled from the spec: §4.3 — vocabulary richness, normalized average
sentence length and concept density combine (weights summing to 1) into a
clamped complexity score; coherence is one minus the normalized variance of the
concept weights, clamped. Baselines replace both when `totalTokens ≤ 1`. -/
def computeScores (toks : List String) (sents : List (List Char))
    (concepts : List Concept) : ℚ × ℚ :=
  let total := toks.length
  if total ≤ 1 then (baselineComplexity, baselineCoherence)
  else
    let vocabularyRichness : ℚ := ((dedupFirst toks).length : ℚ) / (total : ℚ)
    let averageSentenceLength : ℚ := (total : ℚ) / ((max 1 sents.length : Nat) : ℚ)
    let normalizedSentenceLength : ℚ := averageSentenceLength / (averageSentenceLength + 10)
    let conceptDensity : ℚ := (concepts.length : ℚ) / (total : ℚ)
    let complexity :=
      clamp01 (2 / 5 * vocabularyRichness + 3 / 10 * normalizedSentenceLength
        + 3 / 10 * conceptDensity)
    let ws := concepts.map Concept.weight
    let mean := ws.sum / (ws.length : ℚ)
    let variance := (ws.map (fun w => (w - mean) ^ 2)).sum / (ws.length : ℚ)
    let coherence := clamp01 (1 - variance / (variance + 1))
    (complexity, coherence)

def scoresOf (content : String) : ℚ × ℚ :=
  computeScores (tokensOf content) (sentencesOf content) (conceptsOf content)

theorem computeScores_bounds (toks : List String) (sents : List (List Char))
    (concepts : List Concept) :
    0 ≤ (computeScores toks sents concepts).1 ∧ (computeScores toks sents concepts).1 ≤ 1 ∧
      0 ≤ (computeScores toks sents concepts).2 ∧ (computeScores toks sents concepts).2 ≤ 1 := by
  unfold computeScores
  dsimp only
  split
  · refine ⟨by norm_num [baselineComplexity], by norm_num [baselineComplexity],
      by norm_num [baselineCoherence], by norm_num [baselineCoherence]⟩
  · exact ⟨clamp01_nonneg _, clamp01_le_one _, clamp01_nonneg _, clamp01_le_one _⟩

/-! ### Stage 4: Phenomenon Identifier (§4.4) -/

/-- Modelled from the spec: §4.4 — adjacent concepts in rank order rendered
through fixed phrase templates; output length is `min(conceptCount, 4)`. -/
def phenomenaFrom (cs : List Concept) : List String :=
  let ts := cs.map Concept.term
  (List.range (min ts.length 4)).map (fun i =>
    match ts.drop i with
    | a :: b :: _ =>
      "Observa-se interação estrutural entre " ++ a ++ " e " ++ b ++ " no conteúdo analisado."
    | [a] => "O fenômeno central manifesta-se na dinâmica própria de " ++ a ++ "."
    | [] => "Fenômeno emergente do conteúdo analisado.")

def phenomenaOf (content : String) : List String := phenomenaFrom (conceptsOf content)

theorem phenomenaFrom_length (cs : List Concept) :
    (phenomenaFrom cs).length = min cs.length 4 := by
  unfold phenomenaFrom
  simp

/-! ### Stage 5: Formula Synthesizer (§4.5) -/

/-- Modelled from the spec: a formula template of the fixed catalog (§4.5). The
expression is the substituted symbol followed by `exprSuffix`. -/
structure FormulaTemplate where
  titleBase : String
  exprSuffix : String
  explBase : String
  keywords : List String
  deriving DecidableEq, Repr

/-- Modelled from the spec: the fixed formula-template catalog of §4.5, tagged
with keyword sets (energy-like, rate-like, field-like, network-like). -/
def formulaCatalog : List FormulaTemplate :=
  [⟨"Lei de Conservação", " = E0 - k*t", "quantifica a conservação associada a ",
    ["energ", "calor", "forc", "trabalho", "massa"]⟩,
   ⟨"Equação de Taxa", " = r*(1 - x/K)", "descreve a taxa de variação de ",
    ["taxa", "cresc", "fluxo", "tempo", "veloc"]⟩,
   ⟨"Equação de Campo", " = grad(phi)", "representa o campo gerado por ",
    ["campo", "espac", "onda", "sinal", "luz"]⟩,
   ⟨"Relação de Rede", " = soma(w_ij * x_j)", "captura o acoplamento em rede de ",
    ["rede", "conex", "sistema", "dado", "grafo"]⟩]

/-- Modelled from the spec: the generic linear fallback template of §4.5. -/
def fallbackTemplate : FormulaTemplate :=
  ⟨"Relação Linear", " = a*x + b", "modela linearmente a influência de ", []⟩

/-- Character-list prefix test, written out so the kernel evaluates it. -/
def beginsWith : List Char → List Char → Bool
  | [], _ => true
  | _ :: _, [] => false
  | a :: as, b :: bs => if a = b then beginsWith as bs else false

/-- Substring test over character lists. -/
def hasSeg (n : List Char) : List Char → Bool
  | [] => beginsWith n []
  | c :: t => beginsWith n (c :: t) || hasSeg n t

/-- Substring/keyword match used by template and archetype scoring (§4.5, §4.6). -/
def hasSub (needle hay : String) : Bool := hasSeg needle.data hay.data

/-- Number of a template's keywords occurring inside the concept term. -/
def tmplScore (t : FormulaTemplate) (term : String) : Nat :=
  (t.keywords.filter (fun k => hasSub k term)).length

/-- Modelled from the spec: best-overlap template selection with ties broken by
catalog declaration order; zero overlap falls back to the generic linear
template (§4.5). -/
def pickTemplate (term : String) : FormulaTemplate :=
  (formulaCatalog.foldl
    (fun acc t => if acc.1 < tmplScore t term then (tmplScore t term, t) else acc)
    (0, fallbackTemplate)).2

/-- Modelled from the spec: substitute the concept's normalized term as the
symbol of the selected template (§4.5). -/
def mkFormula (c : Concept) : Formula :=
  { title := (pickTemplate c.term).titleBase ++ ": " ++ c.term
    expression := String.mk (c.term.data ++ (pickTemplate c.term).exprSuffix.data)
    explanation := (pickTemplate c.term).explBase ++ c.term }

def formulasOf (content : String) : List Formula :=
  ((conceptsOf content).take 5).map mkFormula

/-- The symbols substituted into the formulas, in formula order. -/
def formulaSyms (content : String) : List String :=
  ((conceptsOf content).take 5).map Concept.term

/-! ### Stage 6: System Model Selector (§4.6) -/

/-- Modelled from the spec: a system archetype of the fixed catalog (§4.6). -/
structure Archetype where
  name : String
  equation : String
  focus : String
  keywords : List String
  deriving DecidableEq, Repr

/-- Modelled from the spec: the fixed archetype catalog of §4.6. -/
def archetypes : List Archetype :=
  [⟨"Oscilador Acoplado", "d2x/dt2 + w2*x = c*y",
    "interações periódicas entre componentes", ["onda", "ritmo", "ciclo", "oscil", "som"]⟩,
   ⟨"Sistema Difusivo", "du/dt = D*lap(u)",
    "propagação gradual de quantidades", ["fluxo", "difus", "propag", "calor", "agua"]⟩,
   ⟨"Rede Adaptativa", "dw/dt = f(ativ)",
    "reorganização de conexões sob atividade", ["rede", "aprend", "adapt", "social", "dado"]⟩]

/-- Modelled from the spec: the catalog's declared default archetype, returned
even with zero overlap (§4.6). -/
def defaultArchetype : Archetype :=
  ⟨"Sistema Dinâmico Geral", "dx/dt = F(x)",
   "evolução temporal de estados agregados", []⟩

def toModel (a : Archetype) : SystemModel :=
  { name := a.name, governingEquation := a.equation, focus := a.focus }

/-- Jaccard-style overlap count between an archetype's keywords and the
extracted concept terms (§4.6). -/
def archScore (a : Archetype) (cs : List Concept) : Nat :=
  (a.keywords.filter (fun k => cs.any (fun c => hasSub k c.term))).length

/-- Modelled from the spec: §4.6 — rank archetypes by overlap, keep the top two
with positive score (ties by catalog order via stable sort), falling back to
the declared default archetype when nothing overlaps. -/
def selectModels (cs : List Concept) : List SystemModel :=
  let positives := archetypes.filter (fun a => decide (0 < archScore a cs))
  let ranked := sortBy (fun a b => decide (archScore b cs < archScore a cs)) positives
  let selected := (ranked.take 2).map toModel
  if selected.isEmpty then [toModel defaultArchetype] else selected

def modelsOf (content : String) : List SystemModel := selectModels (conceptsOf content)

theorem selectModels_length (cs : List Concept) :
    1 ≤ (selectModels cs).length ∧ (selectModels cs).length ≤ 2 := by
  unfold selectModels
  dsimp only
  split
  · simp
  · rename_i h
    constructor
    · rcases hnil : ((sortBy _ _).take 2).map toModel with _ | ⟨x, xs⟩
      · simp at h hnil
        exact absurd hnil h
      · simp
    · calc (((sortBy _ _).take 2).map toModel).length
          = ((sortBy (fun a b => decide (archScore b cs < archScore a cs))
              (archetypes.filter (fun a => decide (0 < archScore a cs)))).take 2).length :=
            List.length_map _ _
        _ ≤ 2 := List.length_take_le _ _

/-! ### Stage 7: Parameter Table Builder (§4.7) -/

/-- Modelled from the spec: §4.7 — one entry per distinct substituted symbol, in
first-appearance order, described from the originating concept. -/
def paramsOf (content : String) : List ParameterEntry :=
  (dedupFirst (formulaSyms content)).map
    (fun s => { label := s, description := "variável que representa " ++ s })

/-! ### Stage 8: Inference Narrator (§4.8) -/

/-- Modelled from the spec: §4.8 — a fixed count of five ordered steps citing
the intermediate results. -/
def narrationOf (content : String) : List String :=
  ["Normalização segmentou o conteúdo em " ++ toString (tokensOf content).length ++ " tokens.",
   "Extração identificou " ++ toString (conceptsOf content).length ++ " conceitos dominantes.",
   "Métricas de complexidade e coerência foram normalizadas para o intervalo unitário.",
   "Seleção escolheu " ++ toString (modelsOf content).length ++ " arquétipos de sistema.",
   "Síntese derivou " ++ toString (formulasOf content).length ++ " fórmulas simbólicas."]

/-! ### Stage 9: Experiment Recommender (§4.9) -/

def expLine (m : SystemModel) (p : String) : String :=
  "Investigar experimentalmente " ++ m.focus ++ " observando " ++ p

def genericExperimentA : String :=
  "Repetir o protocolo sob variações controladas das condições iniciais."

def genericExperimentB : String :=
  "Registrar séries temporais do sistema para validar as fórmulas derivadas."

/-- Modelled from the spec: §4.9 — model-then-phenomenon templated suggestions,
padded to at least two and capped at four. -/
def experimentsFrom (models : List SystemModel) (phen : List String) : List String :=
  let base := (models.map (fun m => (phen.take 2).map (expLine m))).flatten
  match base.take 4 with
  | [] => [genericExperimentA, genericExperimentB]
  | [x] => [x, genericExperimentA]
  | x :: y :: rest => x :: y :: rest

def experimentsOf (content : String) : List String :=
  experimentsFrom (modelsOf content) (phenomenaOf content)

theorem experimentsFrom_length (models : List SystemModel) (phen : List String) :
    2 ≤ (experimentsFrom models phen).length ∧ (experimentsFrom models phen).length ≤ 4 := by
  unfold experimentsFrom
  dsimp only
  have h4 : (((models.map (fun m => (phen.take 2).map (expLine m))).flatten).take 4).length ≤ 4 :=
    List.length_take_le _ _
  rcases he : ((models.map (fun m => (phen.take 2).map (expLine m))).flatten).take 4
    with _ | ⟨x, _ | ⟨y, rest⟩⟩
  · simp
  · simp
  · rw [he] at h4
    simp only [List.length_cons] at h4 ⊢
    omega

/-! ### Stage 10: Orchestrator (§4.10) -/

def thesisOf (content : String) : String :=
  match conceptsOf content with
  | [] => "A dinâmica interna do conteúdo estrutura os fenômenos observados."
  | c :: _ => "A dinâmica de " ++ c.term ++ " estrutura os fenômenos observados no conteúdo."

/-- Modelled from the spec: assembly of the final artifact (§4.10); every field
except `signalProfile` is computed from the content alone, and
`signalProfile.medium` is copied verbatim from the descriptor. -/
def buildTheory (content : String) (d : SourceDescriptor) : TheorySynthesis :=
  { coreThesis := thesisOf content
    phenomena := phenomenaOf content
    derivedFormulas := formulasOf content
    systemModels := modelsOf content
    parameterTable := paramsOf content
    complexityScore := (scoresOf content).1
    coherence := (scoresOf content).2
    signalProfile := { medium := d.medium }
    inferenceSteps := narrationOf content
    recommendedExperiments := experimentsOf content }

/-- Modelled from the spec: `synthesize` (§4.10, §6, §7) — fails with the single
`InvalidInputError` exactly when the content is empty or whitespace-only
(`content.trim` empty, i.e. every character is whitespace), and otherwise
returns the fully assembled artifact. -/
def synthesize (content : String) (d : SourceDescriptor) :
    Except InvalidInputError TheorySynthesis :=
  if content.data.all Char.isWhitespace then Except.error InvalidInputError.invalidInput
  else Except.ok (buildTheory content d)

theorem synthesize_ok_inv {content : String} {d : SourceDescriptor} {t : TheorySynthesis}
    (h : synthesize content d = Except.ok t) : t = buildTheory content d := by
  unfold synthesize at h
  split at h
  · exact absurd h (by simp)
  · exact (Except.ok.injEq _ _ ▸ h).symm

/-! ## Route handler embedding (`src/web/src/app/api/synth/route.ts`)

The handler reads multipart form data. `formData.get` returns a string, a
`File`, or `null`; a `File` is modelled by its name, MIME type and the outcome
of the two external parsers applied to its bytes (`pdf-parse` text extraction
and `music-metadata` audio-format parsing), with `none` standing for a parser
throw, which the handler's `catch` turns into an HTTP 500. -/

/-- The audio format record produced by `music-metadata` (`metadata.format`):
optional duration in seconds, bitrate in bits per second and sample rate in Hz.
JavaScript truthiness makes a present value of `0` behave like an absent one. -/
structure AudioFormat where
  duration : Option ℚ
  bitrate : Option ℚ
  sampleRate : Option ℚ
  deriving DecidableEq, Repr

/-- An uploaded `File`: name, MIME type, and the results of the two external
parsers on its contents (`none` models a parser exception). -/
structure FileData where
  name : String
  mime : String
  pdfText : Option String
  audioMeta : Option AudioFormat
  deriving DecidableEq, Repr

/-- A `formData.get` result other than `null`. -/
inductive FormValue where
  | str (s : String)
  | file (f : FileData)
  deriving DecidableEq, Repr

/-- JavaScript numeric truthiness: `x ? e : undefined` treats `0` as absent. -/
def truthyNum (o : Option ℚ) : Option ℚ :=
  match o with
  | some x => if x = 0 then none else some x
  | none => none

/-- Deterministic decimal rendering used in place of `toFixed`; the claims do
not depend on the exact digits. -/
def qRender (q : ℚ) : String := toString q.num ++ "/" ++ toString q.den

/-- `route.ts` lines 24–43: the metadata description fragments, pushed in the
source order duration, sample rate, bitrate. -/
def audioDescriptionList (md : AudioFormat) : List String :=
  (match truthyNum md.duration with
   | some d => ["duração aproximada " ++ qRender d ++ "s"]
   | none => []) ++
  (match truthyNum md.sampleRate with
   | some s => ["taxa de amostragem " ++ qRender s ++ " Hz"]
   | none => []) ++
  (match truthyNum md.bitrate with
   | some b => ["bitrate " ++ qRender (b / 1000) ++ " kbps"]
   | none => [])

/-- `route.ts` line 45–46: the fixed opening sentence of every synthetic audio
transcription. -/
def audioBase : String :=
  "Transcrição analítica baseada em metadados do arquivo de áudio carregado."

def audioTail : String :=
  " A narrativa sugere investigar correlações fenomenológicas a partir do sinal capturado."

/-- `route.ts` lines 47–50: the metrics sentence, or the fixed no-parameters
sentence when every metadata field is missing. -/
def audioMetrics (md : AudioFormat) : String :=
  let d := audioDescriptionList md
  if d.isEmpty then " Parâmetros técnicos não fornecidos pelo arquivo."
  else " O sinal apresenta " ++ String.intercalate ", " d ++ "."

/-- `route.ts` lines 15–53 (`textFromAudio`), applied to a successfully parsed
audio format. Written with an explicit character-list concatenation so the
fixed prefix is apparent. -/
def textFromAudio (md : AudioFormat) : String :=
  String.mk (audioBase.data ++ (audioMetrics md).data ++ audioTail.data)

/-- Splits on whitespace runs; `text.replace` of whitespace runs by single
spaces followed by `trim` is the same as re-joining these words. -/
def wordsAux : List Char → List Char → List String
  | [], acc => if acc.isEmpty then [] else [String.mk acc.reverse]
  | c :: cs, acc =>
    if c.isWhitespace then
      if acc.isEmpty then wordsAux cs [] else String.mk acc.reverse :: wordsAux cs []
    else wordsAux cs (c :: acc)

/-- `route.ts` line 12: collapse whitespace runs to single spaces and trim. -/
def normalizePdf (t : String) : String := String.intercalate " " (wordsAux t.data [])

/-- The error outcomes of the extraction phase of `POST` (the `try` block up to
line 120): a 400 response, or a parser exception that the `catch` at line 135
converts into a 500. -/
inductive ExtractErr where
  | badRequest (msg : String)
  | parseFailure
  deriving DecidableEq, Repr

def noMediumMsg : String := "Formato de entrada não informado."

/-- `route.ts` lines 73–85: the `medium === "text"` branch. A present but empty
text field is falsy in JavaScript and also yields the 400 response. -/
def textStage (v : Option FormValue) : Except ExtractErr (String × SourceDescriptor) :=
  match v with
  | some (FormValue.str raw) =>
    if raw = "" then Except.error (ExtractErr.badRequest "Texto não fornecido.")
    else Except.ok (raw,
      { medium := Medium.text, length := raw.length, contextTag := none,
        additionalNotes := none })
  | _ => Except.error (ExtractErr.badRequest "Texto não fornecido.")

/-- `route.ts` lines 86–99: the `medium === "pdf"` branch. -/
def pdfStage (v : Option FormValue) : Except ExtractErr (String × SourceDescriptor) :=
  match v with
  | some (FormValue.file f) =>
    match f.pdfText with
    | none => Except.error ExtractErr.parseFailure
    | some t => Except.ok (normalizePdf t,
        { medium := Medium.pdf, length := (normalizePdf t).length,
          contextTag := some f.name, additionalNotes := none })
  | _ => Except.error (ExtractErr.badRequest "Arquivo PDF não encontrado.")

/-- `route.ts` lines 100–114: the `medium === "audio"` branch. -/
def audioStage (v : Option FormValue) : Except ExtractErr (String × SourceDescriptor) :=
  match v with
  | some (FormValue.file f) =>
    match f.audioMeta with
    | none => Except.error ExtractErr.parseFailure
    | some md => Except.ok (textFromAudio md,
        { medium := Medium.audio, length := (textFromAudio md).length,
          contextTag := some f.name,
          additionalNotes := some ["Transcrição sintética gerada via metadados."] })
  | _ => Except.error (ExtractErr.badRequest "Arquivo de áudio não encontrado.")

/-- `route.ts` lines 57–120: medium validation (lines 59–64, where the empty
string is falsy) and branch dispatch, including the unsupported-medium 400 of
lines 115–120. -/
def mediumStage (v : Option FormValue) (fd : String → Option FormValue) :
    Except ExtractErr (String × SourceDescriptor) :=
  match v with
  | some (FormValue.str medium) =>
    if medium = "" then Except.error (ExtractErr.badRequest noMediumMsg)
    else if medium = "text" then textStage (fd "text")
    else if medium = "pdf" then pdfStage (fd "file")
    else if medium = "audio" then audioStage (fd "file")
    else Except.error (ExtractErr.badRequest "Tipo de entrada não suportado.")
  | _ => Except.error (ExtractErr.badRequest noMediumMsg)

def extractStage (fd : String → Option FormValue) :
    Except ExtractErr (String × SourceDescriptor) :=
  mediumStage (fd "medium") fd

/-- The observable outcome of a `POST` request: an HTTP 400, the 422 of lines
122–127, the catch-all 500 of lines 135–144, or a 200 carrying the extracted
content and the synthesized theory (lines 129–134). -/
inductive PostResult where
  | badRequest (msg : String)
  | unprocessable (msg : String)
  | serverError
  | success (content : String) (meta : SourceDescriptor) (theory : TheorySynthesis)
  deriving DecidableEq, Repr

/-- `route.ts` lines 122–134: the empty-content 422 check and the call into
`synthesizeTheory`; an `InvalidInputError` escaping `synthesizeTheory` is
caught at line 135 as a 500. -/
def finishStage (content : String) (meta : SourceDescriptor) : PostResult :=
  if content = "" then PostResult.unprocessable "Nenhum conteúdo pôde ser extraído."
  else
    match synthesize content meta with
    | Except.ok t => PostResult.success content meta t
    | Except.error _ => PostResult.serverError

/-- `route.ts` lines 55–145: the full `POST` handler. -/
def POST (fd : String → Option FormValue) : PostResult :=
  match extractStage fd with
  | Except.error (ExtractErr.badRequest msg) => PostResult.badRequest msg
  | Except.error ExtractErr.parseFailure => PostResult.serverError
  | Except.ok (content, meta) => finishStage content meta

/-! ## Helper lemmas -/

theorem mem_of_mem_dedupFirst {α : Type} [DecidableEq α] :
    ∀ (l : List α) (a : α), a ∈ dedupFirst l → a ∈ l := by
  intro l
  induction l using dedupFirst.induct with
  | case1 => intro a h; simp [dedupFirst] at h
  | case2 x xs ih =>
    intro a h
    simp only [dedupFirst] at h
    rcases List.mem_cons.mp h with rfl | h2
    · exact List.mem_cons_self _ _
    · exact List.mem_cons_of_mem _ (List.mem_of_mem_filter (ih a h2))

theorem nodup_dedupFirst {α : Type} [DecidableEq α] : ∀ (l : List α), (dedupFirst l).Nodup := by
  intro l
  induction l using dedupFirst.induct with
  | case1 => simp [dedupFirst]
  | case2 x xs ih =>
    simp only [dedupFirst]
    refine List.nodup_cons.mpr ⟨?_, ih⟩
    intro hmem
    have h2 := List.mem_filter.mp (mem_of_mem_dedupFirst _ _ hmem)
    simp at h2

theorem dedupFirst_ne_nil {α : Type} [DecidableEq α] {l : List α} (h : l ≠ []) :
    dedupFirst l ≠ [] := by
  cases l with
  | nil => exact absurd rfl h
  | cons x xs => simp [dedupFirst]

theorem narrationOf_length (content : String) : (narrationOf content).length = 5 := rfl

theorem mem_formulaSyms_closure {content : String} {s : String}
    (hs : s ∈ formulaSyms content) :
    ∃ f ∈ formulasOf content, ∃ r, f.expression.data = s.data ++ r := by
  unfold formulaSyms at hs
  obtain ⟨c, hc, rfl⟩ := List.mem_map.mp hs
  refine ⟨mkFormula c, ?_, (pickTemplate c.term).exprSuffix.data, rfl⟩
  unfold formulasOf
  exact List.mem_map_of_mem _ hc

theorem textFromAudio_data (md : AudioFormat) :
    (textFromAudio md).data =
      audioBase.data ++ ((audioMetrics md).data ++ audioTail.data) := by
  simp [textFromAudio]

theorem textFromAudio_ne_empty (md : AudioFormat) : textFromAudio md ≠ "" := by
  intro hcontra
  have hdata : audioBase.data ++ ((audioMetrics md).data ++ audioTail.data) = [] := by
    rw [← textFromAudio_data md, hcontra]
  rcases List.append_eq_nil.mp hdata with ⟨hb, _⟩
  exact absurd hb (by decide)

theorem finishStage_success_inv {content c : String} {meta m : SourceDescriptor}
    {t : TheorySynthesis} (h : finishStage content meta = PostResult.success c m t) :
    c = content ∧ m = meta := by
  unfold finishStage at h
  split at h
  · exact absurd h (by simp)
  · split at h
    · rename_i heq
      injection h with h1 h2 h3
      exact ⟨h1.symm, h2.symm⟩
    · exact absurd h (by simp)

theorem finishStage_ne_unprocessable {content : String} (hne : content ≠ "")
    (meta : SourceDescriptor) (msg : String) :
    finishStage content meta ≠ PostResult.unprocessable msg := by
  unfold finishStage
  rw [if_neg hne]
  split <;> simp

theorem textStage_length {v : Option FormValue} {c : String} {m : SourceDescriptor}
    (h : textStage v = Except.ok (c, m)) : m.length = c.length := by
  unfold textStage at h
  split at h
  · split at h
    · exact absurd h (by simp)
    · simp only [Except.ok.injEq, Prod.mk.injEq] at h
      obtain ⟨rfl, rfl⟩ := h
      rfl
  · exact absurd h (by simp)

theorem pdfStage_length {v : Option FormValue} {c : String} {m : SourceDescriptor}
    (h : pdfStage v = Except.ok (c, m)) : m.length = c.length := by
  unfold pdfStage at h
  split at h
  · split at h
    · exact absurd h (by simp)
    · simp only [Except.ok.injEq, Prod.mk.injEq] at h
      obtain ⟨rfl, rfl⟩ := h
      rfl
  · exact absurd h (by simp)

theorem audioStage_length {v : Option FormValue} {c : String} {m : SourceDescriptor}
    (h : audioStage v = Except.ok (c, m)) : m.length = c.length := by
  unfold audioStage at h
  split at h
  · split at h
    · exact absurd h (by simp)
    · simp only [Except.ok.injEq, Prod.mk.injEq] at h
      obtain ⟨rfl, rfl⟩ := h
      rfl
  · exact absurd h (by simp)

theorem extractStage_length {fd : String → Option FormValue} {c : String}
    {m : SourceDescriptor} (h : extractStage fd = Except.ok (c, m)) :
    m.length = c.length := by
  unfold extractStage mediumStage at h
  split at h
  · split at h
    · exact absurd h (by simp)
    · split at h
      · exact textStage_length h
      · split at h
        · exact pdfStage_length h
        · split at h
          · exact audioStage_length h
          · exact absurd h (by simp)
  · exact absurd h (by simp)

/-- A predicate reading off the `"medium"` form field states of `route.ts`
lines 57–64 and 115–120: absent, not a string, or not a supported medium name.
The empty string is also rejected (it falls to the falsiness check of line 59),
and it is not a supported medium name. -/
def invalidMediumField (v : Option FormValue) : Prop :=
  match v with
  | none => True
  | some (FormValue.file _) => True
  | some (FormValue.str m) => m ≠ "text" ∧ m ≠ "pdf" ∧ m ≠ "audio"

/-! ## Concrete inputs used by the witness theorems -/

def demoDescriptor : SourceDescriptor :=
  { medium := Medium.text, length := 7, contextTag := none, additionalNotes := none }

def demoPdfDescriptor : SourceDescriptor :=
  { medium := Medium.pdf, length := 7, contextTag := none, additionalNotes := none }

def demoForm : String → Option FormValue := fun k =>
  if k = "medium" then some (FormValue.str "text")
  else if k = "text" then some (FormValue.str "energia") else none

def demoMeta : SourceDescriptor :=
  { medium := Medium.text, length := ("energia" : String).length, contextTag := none,
    additionalNotes := none }

def demoAudioMeta : AudioFormat := { duration := none, bitrate := none, sampleRate := none }

def demoFile : FileData :=
  { name := "sinal.mp3", mime := "audio/mpeg", pdfText := none,
    audioMeta := some demoAudioMeta }

def demoAudioForm : String → Option FormValue := fun k =>
  if k = "medium" then some (FormValue.str "audio")
  else if k = "file" then some (FormValue.file demoFile) else none

/-! ## Claims -/

/-- C1: `synthesize` fails, with the single explicit `InvalidInputError`,
exactly when the content is empty or whitespace-only after trimming (all of its
characters are whitespace); every other content string returns a complete
`TheorySynthesis`, and no other error kind is ever signalled. -/
theorem claim1_invalid_input_dichotomy (c : String) (d : SourceDescriptor) :
    (c.data.all Char.isWhitespace = true →
      synthesize c d = Except.error InvalidInputError.invalidInput) ∧
    (c.data.all Char.isWhitespace = false →
      synthesize c d = Except.ok (buildTheory c d)) ∧
    (∀ e, synthesize c d = Except.error e → e = InvalidInputError.invalidInput) := by
  refine ⟨fun h => ?_, fun h => ?_, fun e _ => ?_⟩
  · unfold synthesize
    rw [if_pos h]
  · unfold synthesize
    rw [if_neg (by simp [h])]
  · cases e
    rfl

theorem claim1_witness :
    synthesize "   " demoDescriptor = Except.error InvalidInputError.invalidInput ∧
    synthesize "energia" demoDescriptor =
      Except.ok (buildTheory "energia" demoDescriptor) :=
  ⟨(claim1_invalid_input_dichotomy "   " demoDescriptor).1 (by decide),
   (claim1_invalid_input_dichotomy "energia" demoDescriptor).2.1 (by decide)⟩

/-- C2: `synthesize` is a pure deterministic function of its two arguments:
repeated calls on the same pair agree, and any two successful results of the
same call are field-for-field equal. -/
theorem claim2_deterministic (c : String) (d : SourceDescriptor) :
    synthesize c d = synthesize c d ∧
    ∀ t₁ t₂, synthesize c d = Except.ok t₁ → synthesize c d = Except.ok t₂ →
      t₁.coreThesis = t₂.coreThesis ∧ t₁.phenomena = t₂.phenomena ∧
      t₁.derivedFormulas = t₂.derivedFormulas ∧ t₁.systemModels = t₂.systemModels ∧
      t₁.parameterTable = t₂.parameterTable ∧ t₁.complexityScore = t₂.complexityScore ∧
      t₁.coherence = t₂.coherence ∧ t₁.signalProfile = t₂.signalProfile ∧
      t₁.inferenceSteps = t₂.inferenceSteps ∧
      t₁.recommendedExperiments = t₂.recommendedExperiments := by
  refine ⟨rfl, fun t₁ t₂ h₁ h₂ => ?_⟩
  rw [h₁] at h₂
  obtain rfl : t₁ = t₂ := Except.ok.injEq _ _ ▸ h₂
  exact ⟨rfl, rfl, rfl, rfl, rfl, rfl, rfl, rfl, rfl, rfl⟩

theorem claim2_witness :
    synthesize "energia" demoDescriptor = synthesize "energia" demoDescriptor ∧
    (buildTheory "energia" demoDescriptor).coreThesis =
      (buildTheory "energia" demoDescriptor).coreThesis :=
  ⟨(claim2_deterministic "energia" demoDescriptor).1,
   ((claim2_deterministic "energia" demoDescriptor).2 _ _ rfl rfl).1⟩

/-- C3: every successful synthesis has `complexityScore` and `coherence` defined
(as rationals) and inside [0,1]; with at most one token the fixed baseline
values are substituted instead of dividing by zero. -/
theorem claim3_score_bounds (c : String) (d : SourceDescriptor) (t : TheorySynthesis)
    (h : synthesize c d = Except.ok t) :
    0 ≤ t.complexityScore ∧ t.complexityScore ≤ 1 ∧
    0 ≤ t.coherence ∧ t.coherence ≤ 1 ∧
    ((tokensOf c).length ≤ 1 →
      t.complexityScore = baselineComplexity ∧ t.coherence = baselineCoherence) := by
  obtain rfl := synthesize_ok_inv h
  have hb := computeScores_bounds (tokensOf c) (sentencesOf c) (conceptsOf c)
  refine ⟨hb.1, hb.2.1, hb.2.2.1, hb.2.2.2, fun hle => ?_⟩
  have hbase : computeScores (tokensOf c) (sentencesOf c) (conceptsOf c) =
      (baselineComplexity, baselineCoherence) := by
    unfold computeScores
    dsimp only
    rw [if_pos hle]
  exact ⟨congrArg Prod.fst hbase, congrArg Prod.snd hbase⟩

theorem claim3_witness :
    0 ≤ (buildTheory "energia" demoDescriptor).complexityScore ∧
    (buildTheory "energia" demoDescriptor).complexityScore ≤ 1 ∧
    0 ≤ (buildTheory "energia" demoDescriptor).coherence ∧
    (buildTheory "energia" demoDescriptor).coherence ≤ 1 ∧
    ((tokensOf "energia").length ≤ 1 →
      (buildTheory "energia" demoDescriptor).complexityScore = baselineComplexity ∧
      (buildTheory "energia" demoDescriptor).coherence = baselineCoherence) :=
  claim3_score_bounds "energia" demoDescriptor (buildTheory "energia" demoDescriptor) rfl

/-- C4: every successful synthesis respects the cardinality contract —
1–5 formulas, 1–2 system models, 4–6 inference steps, 2–4 recommended
experiments, non-empty phenomena and parameter table — regardless of input
size. -/
theorem claim4_cardinalities (c : String) (d : SourceDescriptor) (t : TheorySynthesis)
    (h : synthesize c d = Except.ok t) :
    1 ≤ t.derivedFormulas.length ∧ t.derivedFormulas.length ≤ 5 ∧
    1 ≤ t.systemModels.length ∧ t.systemModels.length ≤ 2 ∧
    4 ≤ t.inferenceSteps.length ∧ t.inferenceSteps.length ≤ 6 ∧
    2 ≤ t.recommendedExperiments.length ∧ t.recommendedExperiments.length ≤ 4 ∧
    t.phenomena ≠ [] ∧ t.parameterTable ≠ [] := by
  obtain rfl := synthesize_ok_inv h
  simp only [buildTheory]
  have hcl := conceptsOf_length c
  have hf : (formulasOf c).length = min 5 (conceptsOf c).length := by
    unfold formulasOf
    rw [List.length_map, List.length_take]
  have hm := selectModels_length (conceptsOf c)
  have he := experimentsFrom_length (modelsOf c) (phenomenaOf c)
  have hph : (phenomenaOf c).length = min (conceptsOf c).length 4 :=
    phenomenaFrom_length (conceptsOf c)
  have hn := narrationOf_length c
  have hsl : (formulaSyms c).length = min 5 (conceptsOf c).length := by
    unfold formulaSyms
    rw [List.length_map, List.length_take]
  have hsyms : formulaSyms c ≠ [] := by
    intro hnil
    rw [hnil] at hsl
    simp at hsl
    omega
  refine ⟨by omega, by omega, hm.1, hm.2, by omega, by omega, he.1, he.2, ?_, ?_⟩
  · intro hnil
    rw [hnil] at hph
    simp at hph
    omega
  · unfold paramsOf
    intro hnil
    rw [List.map_eq_nil_iff] at hnil
    exact dedupFirst_ne_nil hsyms hnil

theorem claim4_witness :
    1 ≤ (buildTheory "energia" demoDescriptor).derivedFormulas.length ∧
    (buildTheory "energia" demoDescriptor).derivedFormulas.length ≤ 5 ∧
    1 ≤ (buildTheory "energia" demoDescriptor).systemModels.length ∧
    (buildTheory "energia" demoDescriptor).systemModels.length ≤ 2 ∧
    4 ≤ (buildTheory "energia" demoDescriptor).inferenceSteps.length ∧
    (buildTheory "energia" demoDescriptor).inferenceSteps.length ≤ 6 ∧
    2 ≤ (buildTheory "energia" demoDescriptor).recommendedExperiments.length ∧
    (buildTheory "energia" demoDescriptor).recommendedExperiments.length ≤ 4 ∧
    (buildTheory "energia" demoDescriptor).phenomena ≠ [] ∧
    (buildTheory "energia" demoDescriptor).parameterTable ≠ [] :=
  claim4_cardinalities "energia" demoDescriptor (buildTheory "energia" demoDescriptor) rfl

/-- C5: every label of the parameter table occurs literally inside some derived
formula expression; the table lists exactly one entry per distinct substituted
symbol (deduplicated by exact match), in first-appearance order, so its labels
are exactly `dedupFirst` of the substituted-symbol sequence and are Nodup. -/
theorem claim5_symbol_closure (c : String) (d : SourceDescriptor) (t : TheorySynthesis)
    (h : synthesize c d = Except.ok t) :
    (∀ p ∈ t.parameterTable, ∃ f ∈ t.derivedFormulas,
      ∃ l r, f.expression.data = l ++ p.label.data ++ r) ∧
    List.map ParameterEntry.label t.parameterTable = dedupFirst (formulaSyms c) ∧
    (List.map ParameterEntry.label t.parameterTable).Nodup := by
  obtain rfl := synthesize_ok_inv h
  have hlab : List.map ParameterEntry.label (paramsOf c) = dedupFirst (formulaSyms c) := by
    have hmk : ∀ (l : List String), List.map ParameterEntry.label
        (l.map (fun s => ParameterEntry.mk s ("variável que representa " ++ s))) = l := by
      intro l
      induction l with
      | nil => rfl
      | cons x xs ih => simp only [List.map_cons, ih]
    exact hmk _
  refine ⟨?_, hlab, hlab ▸ nodup_dedupFirst _⟩
  intro p hp
  have hp2 : p ∈ (dedupFirst (formulaSyms c)).map
      (fun s => ParameterEntry.mk s ("variável que representa " ++ s)) := hp
  obtain ⟨s, hs, rfl⟩ := List.mem_map.mp hp2
  obtain ⟨f, hf, r, hr⟩ := mem_formulaSyms_closure (mem_of_mem_dedupFirst _ _ hs)
  exact ⟨f, hf, [], r, by simpa using hr⟩

theorem claim5_witness :
    (∀ p ∈ (buildTheory "energia" demoDescriptor).parameterTable,
      ∃ f ∈ (buildTheory "energia" demoDescriptor).derivedFormulas,
      ∃ l r, f.expression.data = l ++ p.label.data ++ r) ∧
    List.map ParameterEntry.label (buildTheory "energia" demoDescriptor).parameterTable =
      dedupFirst (formulaSyms "energia") ∧
    (List.map ParameterEntry.label
      (buildTheory "energia" demoDescriptor).parameterTable).Nodup :=
  claim5_symbol_closure "energia" demoDescriptor (buildTheory "energia" demoDescriptor) rfl

/-- C6: the output signal profile's medium is copied verbatim from the input
descriptor. -/
theorem claim6_medium_passthrough (c : String) (d : SourceDescriptor)
    (t : TheorySynthesis) (h : synthesize c d = Except.ok t) :
    t.signalProfile.medium = d.medium := by
  obtain rfl := synthesize_ok_inv h
  rfl

theorem claim6_witness :
    (buildTheory "energia" demoDescriptor).signalProfile.medium =
      demoDescriptor.medium :=
  claim6_medium_passthrough "energia" demoDescriptor
    (buildTheory "energia" demoDescriptor) rfl

/-- C7: two calls on the same content whose descriptors differ only in the
medium field agree on every output field except `signalProfile.medium`, which
echoes each call's own descriptor medium. -/
theorem claim7_medium_noninterference (c : String) (d₁ d₂ : SourceDescriptor)
    (t₁ t₂ : TheorySynthesis)
    (_hlen : d₁.length = d₂.length) (_htag : d₁.contextTag = d₂.contextTag)
    (_hnotes : d₁.additionalNotes = d₂.additionalNotes)
    (h₁ : synthesize c d₁ = Except.ok t₁) (h₂ : synthesize c d₂ = Except.ok t₂) :
    t₁.coreThesis = t₂.coreThesis ∧ t₁.phenomena = t₂.phenomena ∧
    t₁.derivedFormulas = t₂.derivedFormulas ∧ t₁.systemModels = t₂.systemModels ∧
    t₁.parameterTable = t₂.parameterTable ∧
    t₁.complexityScore = t₂.complexityScore ∧ t₁.coherence = t₂.coherence ∧
    t₁.inferenceSteps = t₂.inferenceSteps ∧
    t₁.recommendedExperiments = t₂.recommendedExperiments ∧
    t₁.signalProfile.medium = d₁.medium ∧ t₂.signalProfile.medium = d₂.medium := by
  obtain rfl := synthesize_ok_inv h₁
  obtain rfl := synthesize_ok_inv h₂
  exact ⟨rfl, rfl, rfl, rfl, rfl, rfl, rfl, rfl, rfl, rfl, rfl⟩

theorem claim7_witness :
    (buildTheory "energia cinetica" demoDescriptor).coreThesis =
      (buildTheory "energia cinetica" demoPdfDescriptor).coreThesis ∧
    (buildTheory "energia cinetica" demoDescriptor).phenomena =
      (buildTheory "energia cinetica" demoPdfDescriptor).phenomena ∧
    (buildTheory "energia cinetica" demoDescriptor).derivedFormulas =
      (buildTheory "energia cinetica" demoPdfDescriptor).derivedFormulas ∧
    (buildTheory "energia cinetica" demoDescriptor).systemModels =
      (buildTheory "energia cinetica" demoPdfDescriptor).systemModels ∧
    (buildTheory "energia cinetica" demoDescriptor).parameterTable =
      (buildTheory "energia cinetica" demoPdfDescriptor).parameterTable ∧
    (buildTheory "energia cinetica" demoDescriptor).complexityScore =
      (buildTheory "energia cinetica" demoPdfDescriptor).complexityScore ∧
    (buildTheory "energia cinetica" demoDescriptor).coherence =
      (buildTheory "energia cinetica" demoPdfDescriptor).coherence ∧
    (buildTheory "energia cinetica" demoDescriptor).inferenceSteps =
      (buildTheory "energia cinetica" demoPdfDescriptor).inferenceSteps ∧
    (buildTheory "energia cinetica" demoDescriptor).recommendedExperiments =
      (buildTheory "energia cinetica" demoPdfDescriptor).recommendedExperiments ∧
    (buildTheory "energia cinetica" demoDescriptor).signalProfile.medium =
      demoDescriptor.medium ∧
    (buildTheory "energia cinetica" demoPdfDescriptor).signalProfile.medium =
      demoPdfDescriptor.medium :=
  claim7_medium_noninterference "energia cinetica" demoDescriptor demoPdfDescriptor
    (buildTheory "energia cinetica" demoDescriptor)
    (buildTheory "energia cinetica" demoPdfDescriptor) rfl rfl rfl rfl rfl

/-- C8: whenever the `POST` handler reaches the `synthesizeTheory` call, the
meta record's `length` field equals the exact character count of the content
string passed alongside it (it is a `Nat`, hence non-negative). -/
theorem claim8_meta_length (fd : String → Option FormValue) (c : String)
    (m : SourceDescriptor) (t : TheorySynthesis)
    (h : POST fd = PostResult.success c m t) : m.length = c.length := by
  unfold POST at h
  rcases hx : extractStage fd with e | ⟨c₀, m₀⟩
  · rw [hx] at h
    cases e <;> simp at h
  · rw [hx] at h
    obtain ⟨rfl, rfl⟩ := finishStage_success_inv h
    exact extractStage_length hx

theorem claim8_witness : demoMeta.length = ("energia" : String).length :=
  claim8_meta_length demoForm "energia" demoMeta (buildTheory "energia" demoMeta) rfl

/-- C9: when the `"medium"` form field is absent, not a string, or not one of
the three supported media, `POST` answers with an HTTP 400 error and never
reaches `synthesizeTheory`. -/
theorem claim9_invalid_medium_400 (fd : String → Option FormValue)
    (h : invalidMediumField (fd "medium")) :
    ∃ msg, POST fd = PostResult.badRequest msg := by
  rcases hv : fd "medium" with _ | v
  · refine ⟨noMediumMsg, ?_⟩
    unfold POST extractStage
    rw [hv]
    rfl
  · cases v with
    | file f =>
      refine ⟨noMediumMsg, ?_⟩
      unfold POST extractStage
      rw [hv]
      rfl
    | str m =>
      rw [hv] at h
      by_cases hm : m = ""
      · subst hm
        refine ⟨noMediumMsg, ?_⟩
        unfold POST extractStage
        rw [hv]
        rfl
      · obtain ⟨h1, h2, h3⟩ : m ≠ "text" ∧ m ≠ "pdf" ∧ m ≠ "audio" := h
        refine ⟨"Tipo de entrada não suportado.", ?_⟩
        unfold POST extractStage
        rw [hv]
        unfold mediumStage
        dsimp only
        rw [if_neg hm, if_neg h1, if_neg h2, if_neg h3]

theorem claim9_witness :
    ∃ msg, POST (fun _ => none) = PostResult.badRequest msg :=
  claim9_invalid_medium_400 (fun _ => none) trivial

/-- C10: for every successfully parsed audio file, `textFromAudio` returns a
non-empty string beginning with the fixed transcription sentence, whichever of
duration, sample rate and bitrate are present; hence the empty-content 422
branch of `POST` is unreachable for the audio medium. -/
theorem claim10_audio_text_nonempty :
    (∀ md, (∃ rest, (textFromAudio md).data = audioBase.data ++ rest) ∧
      textFromAudio md ≠ "") ∧
    (∀ (fd : String → Option FormValue) (f : FileData) (md : AudioFormat) (msg : String),
      fd "medium" = some (FormValue.str "audio") →
      fd "file" = some (FormValue.file f) →
      f.audioMeta = some md →
      POST fd ≠ PostResult.unprocessable msg) := by
  constructor
  · intro md
    exact ⟨⟨(audioMetrics md).data ++ audioTail.data, textFromAudio_data md⟩,
      textFromAudio_ne_empty md⟩
  · intro fd f md msg h1 h2 h3
    have hx : extractStage fd = Except.ok (textFromAudio md,
        { medium := Medium.audio, length := (textFromAudio md).length,
          contextTag := some f.name,
          additionalNotes := some ["Transcrição sintética gerada via metadados."] }) := by
      unfold extractStage
      rw [h1]
      unfold mediumStage
      dsimp only
      rw [if_neg (by decide), if_neg (by decide), if_neg (by decide), if_pos rfl, h2]
      unfold audioStage
      dsimp only
      rw [h3]
    unfold POST
    rw [hx]
    exact finishStage_ne_unprocessable (textFromAudio_ne_empty md) _ msg

theorem claim10_witness :
    (∃ rest, (textFromAudio demoAudioMeta).data = audioBase.data ++ rest) ∧
    textFromAudio demoAudioMeta ≠ "" ∧
    POST demoAudioForm ≠ PostResult.unprocessable "Nenhum conteúdo pôde ser extraído." :=
  ⟨(claim10_audio_text_nonempty.1 demoAudioMeta).1,
   (claim10_audio_text_nonempty.1 demoAudioMeta).2,
   claim10_audio_text_nonempty.2 demoAudioForm demoFile demoAudioMeta
     "Nenhum conteúdo pôde ser extraído." rfl rfl rfl⟩

end SynthEngine
